import Mathlib

/-!
Shallow embedding of the CTF-scenario schema, validation and lifecycle layer
of the instructor-portal repository.

Sources embedded here:
* `backend/src/schemas/scenarios/ctf-scenario.schema.ts` — TypeScript shapes,
  the `CTF_CONSTRAINTS` table and `validateCTFScenario`.
* the Mongoose model file (`CTFScenario.model.ts`) — document shape, the
  pre-save middleware, the `publish` / `archive` / `saveDraft` instance
  methods, `createCTFScenario` and `validateCTFScenarioData`.

Strings are modelled by Lean `String`, JS numbers by `Int` (by `Nat` where the
source only ever uses the value as a length or a timestamp), JS `Date` by a
`Nat` timestamp, and optional / possibly-absent fields by `Option`.  The two
brace characters are written via `Char.ofNat` throughout.
-/

/-- The character `\x7b` (left curly brace). -/
def lbrace : Char := Char.ofNat 123

/-- The character `\x7d` (right curly brace). -/
def rbrace : Char := Char.ofNat 125

/- ## Enumerated string unions from the TypeScript schema -/

inductive Difficulty where
  | beginner
  | intermediate
  | advanced
  | expert
  deriving DecidableEq

inductive FlagValidationType where
  | exact_match
  | regex
  | case_insensitive
  deriving DecidableEq

inductive HintLevel where
  | minimal
  | guided
  | detailed
  deriving DecidableEq

inductive SolutionDifficulty where
  | easy
  | medium
  | hard
  deriving DecidableEq

inductive EnvironmentType where
  | web_application
  | pcap_file
  | ssh_access
  | virtual_network
  | docker_container
  | cloud_environment
  | other
  deriving DecidableEq

inductive ScenarioStatus where
  | draft
  | pending_review
  | published
  | archived
  deriving DecidableEq

inductive LLMPreset where
  | beginner_friendly
  | balanced
  | challenge
  | custom
  deriving DecidableEq

inductive NarrativeStyle where
  | realistic
  | gamified
  | academic
  deriving DecidableEq

inductive CommunicationStyle where
  | professional
  | friendly
  | mentor
  | peer
  deriving DecidableEq

inductive CollaborationMode where
  | individual
  | team
  deriving DecidableEq

/-- The `access_info?: Record<string, any>` field is a deliberately
unconstrained structured value (map / array / scalar union). -/
inductive MixedValue where
  | str : String → MixedValue
  | num : Int → MixedValue
  | boolean : Bool → MixedValue
  | null : MixedValue
  | arr : List MixedValue → MixedValue
  | obj : List (String × MixedValue) → MixedValue

/- ## Record shapes (TypeScript interfaces / Mongoose sub-schemas) -/

structure CTFHint where
  id : Int
  level : HintLevel
  content : String
  suggested_cost : Int
  unlock_condition : Option String

structure CTFSolution where
  method : String
  difficulty : SolutionDifficulty
  steps : List String
  payload : Option String
  explanation : String
  prerequisites : Option (List String)

structure CTFFile where
  name : String
  url : String
  size : Option String
  description : Option String
  checksum : Option String

structure CTFEnvironment where
  type : EnvironmentType
  description : Option String
  required_tools : Option (List String)
  access_info : Option MixedValue
  url : Option String
  credentials : Option (String × String)
  files : Option (List CTFFile)
  tech_stack : Option (List String)

structure CTFFeedbackTemplates where
  correct : String
  invalid_format : String
  close : Option String
  wrong_approach : Option String
  time_warning : Option String
  extra : List (String × String)

structure EducationalContent where
  what_is : String
  how_it_works : String
  real_world_examples : Option (List String)
  prevention : String
  related_topics : Option (List String)
  references : Option (List String)

structure CTFGameContent where
  description : String
  background_story : Option String
  flag : String
  flag_format : String
  flag_validation : FlagValidationType
  flag_regex : Option String
  max_score : Int
  environment : Option CTFEnvironment
  hints : List CTFHint
  feedback_templates : CTFFeedbackTemplates
  solutions : List CTFSolution
  educational_content : Option EducationalContent

structure BasicInfo where
  title : String
  topic : String
  subtopic : Option String
  difficulty : Difficulty
  estimated_time : Int
  learning_objectives : List String
  tags : List String

structure LLMConfig where
  preset : Option LLMPreset
  creativity : Option Rat
  hint_detail_level : Option Rat
  feedback_detail_level : Option Rat
  explanation_depth : Option Rat
  hint_count : Option Nat
  narrative_style : Option NarrativeStyle
  communication_style : Option CommunicationStyle

structure GamificationConfig where
  show_leaderboard : Bool
  allow_retries : Bool
  retry_penalty : Int
  time_bonus_enabled : Bool
  collaboration_mode : CollaborationMode

/-- `ScenarioMetadata`, after the `MetadataSchema` sub-schema of the Mongoose
model (the `base-scenario.schema.ts` interface file is not part of the corpus;
the field set below is exactly the one the Mongoose `MetadataSchema` declares,
with `Date` values as `Nat` timestamps). -/
structure ScenarioMetadata where
  created_at : Nat
  updated_at : Nat
  created_by : String
  version : Nat
  status : ScenarioStatus
  llm_generated : Bool
  deriving DecidableEq

/-- The full `CTFScenario` record of the TypeScript interface layer. -/
structure CTFScenario where
  scenario_id : String
  scenario_type : String
  basic_info : BasicInfo
  game_content : CTFGameContent
  llm_config : Option LLMConfig
  custom_instructions : Option String
  gamification_config : Option GamificationConfig
  metadata : ScenarioMetadata

/- ## CTF_CONSTRAINTS (ctf-scenario.schema.ts) -/

def CTF_CONSTRAINTS_description_min_length : Nat := 300

def CTF_CONSTRAINTS_description_max_length : Nat := 600

def CTF_CONSTRAINTS_background_story_min_length : Nat := 100

def CTF_CONSTRAINTS_background_story_max_length : Nat := 300

def CTF_CONSTRAINTS_hints_min_count : Nat := 3

def CTF_CONSTRAINTS_hints_max_count : Nat := 7

def CTF_CONSTRAINTS_solutions_min_count : Nat := 1

def CTF_CONSTRAINTS_flag_min_length : Nat := 10

def CTF_CONSTRAINTS_flag_max_length : Nat := 100

/- ## The flag pattern  ^CTF\x7b[^\x7d]+\x7d$  (CTF_CONSTRAINTS.flag.pattern) -/

/-- Matcher for the regex fragment `[^\x7d]*\x7d` anchored at the end: the
list must consist of zero or more non-`\x7d` characters followed by a single
final `\x7d`. -/
def flagTail : List Char → Bool
  | [] => false
  | [c] => c == rbrace
  | c :: c2 :: cs => !(c == rbrace) && flagTail (c2 :: cs)

/-- Matcher for the regex fragment `[^\x7d]+\x7d` anchored at the end: one or
more non-`\x7d` characters followed by a single final `\x7d`. -/
def flagBody : List Char → Bool
  | [] => false
  | [_] => false
  | c :: c2 :: cs => !(c == rbrace) && flagTail (c2 :: cs)

/-- `CTF_CONSTRAINTS.flag.pattern.test`, i.e. the anchored regex
`^CTF\x7b[^\x7d]+\x7d$` applied to the whole string. -/
def ctfFlagMatch (s : String) : Bool :=
  match s.data with
  | 'C' :: 'T' :: 'F' :: b :: rest => b == lbrace && flagBody rest
  | _ => false

/- ## validateCTFScenario (ctf-scenario.schema.ts) -/

structure ValidationResult where
  valid : Bool
  errors : List String
  deriving DecidableEq

/-- The template string pushed for a bad description length in
`validateCTFScenario` (interpolating the two constraint values). -/
def descriptionMsg : String :=
  "Description must be " ++ toString CTF_CONSTRAINTS_description_min_length ++
    "-" ++ toString CTF_CONSTRAINTS_description_max_length ++ " characters"

/-- The message pushed for a flag that fails the pattern test (both in
`validateCTFScenario` and in `validateCTFScenarioData`). -/
def flagMsg : String := "Flag must match format CTF\x7b...\x7d"

/-- The template string pushed for a bad hint count in `validateCTFScenario`. -/
def hintsMsg : String :=
  "Must have " ++ toString CTF_CONSTRAINTS_hints_min_count ++ "-" ++
    toString CTF_CONSTRAINTS_hints_max_count ++ " hints"

/-- The template string pushed for a bad solution count in
`validateCTFScenario` (and, with the literal `1`, in
`validateCTFScenarioData`). -/
def solutionsMsg : String :=
  "Must have at least " ++ toString CTF_CONSTRAINTS_solutions_min_count ++ " solution"

/-- `validateCTFScenario` from `ctf-scenario.schema.ts`, translated push by
push: each failed check appends its message to the accumulated error list, in
source order (description length, flag pattern, hint count, solution count),
and `valid` is `errors.length === 0`. -/
def validateCTFScenario (sc : CTFScenario) : ValidationResult :=
  let errors : List String := []
  let descLen := sc.game_content.description.length
  let errors :=
    if descLen < CTF_CONSTRAINTS_description_min_length ||
        descLen > CTF_CONSTRAINTS_description_max_length then
      errors ++ [descriptionMsg]
    else errors
  let errors :=
    if !(ctfFlagMatch sc.game_content.flag) then errors ++ [flagMsg] else errors
  let hintCount := sc.game_content.hints.length
  let errors :=
    if hintCount < CTF_CONSTRAINTS_hints_min_count ||
        hintCount > CTF_CONSTRAINTS_hints_max_count then
      errors ++ [hintsMsg]
    else errors
  let errors :=
    if sc.game_content.solutions.length < CTF_CONSTRAINTS_solutions_min_count then
      errors ++ [solutionsMsg]
    else errors
  { valid := errors.length == 0, errors := errors }

/- Independent per-check predicates (each is the exact condition of the
corresponding `if` in `validateCTFScenario`). -/

def descBad (sc : CTFScenario) : Bool :=
  sc.game_content.description.length < CTF_CONSTRAINTS_description_min_length ||
    sc.game_content.description.length > CTF_CONSTRAINTS_description_max_length

def flagBad (sc : CTFScenario) : Bool :=
  !(ctfFlagMatch sc.game_content.flag)

def hintsBad (sc : CTFScenario) : Bool :=
  sc.game_content.hints.length < CTF_CONSTRAINTS_hints_min_count ||
    sc.game_content.hints.length > CTF_CONSTRAINTS_hints_max_count

def solutionsBad (sc : CTFScenario) : Bool :=
  sc.game_content.solutions.length < CTF_CONSTRAINTS_solutions_min_count

/- ## The Mongoose document model (CTFScenario.model.ts) -/

/-- A `CTFScenarioDocument`: the persisted Mongoose document.  Unlike the
TypeScript `CTFScenario` interface, a Mongoose document may still lack its
`basic_info` / `game_content` sub-documents before validation, so those are
`Option`s here; `isNew` is the Mongoose flag distinguishing a document not
yet persisted (initial create) from a persisted one. -/
structure CTFScenarioDocument where
  scenario_id : String
  scenario_type : String
  basic_info : Option BasicInfo
  game_content : Option CTFGameContent
  llm_config : Option LLMConfig
  custom_instructions : Option String
  gamification_config : Option GamificationConfig
  metadata : ScenarioMetadata
  isNew : Bool

/-- The `pre('save')` middleware followed by the persist: it sets
`metadata.updated_at` to the current time, increments `metadata.version`
only when the document is not new, and after the save the document is no
longer new. -/
def save (doc : CTFScenarioDocument) (now : Nat) : CTFScenarioDocument :=
  { doc with
    metadata :=
      { doc.metadata with
        updated_at := now
        version := if doc.isNew then doc.metadata.version else doc.metadata.version + 1 }
    isNew := false }

/-- Instance method `publish`: sets `metadata.status = 'published'` and
returns `this.save()`. -/
def publish (doc : CTFScenarioDocument) (now : Nat) : CTFScenarioDocument :=
  save { doc with metadata := { doc.metadata with status := ScenarioStatus.published } } now

/-- Instance method `archive`: sets `metadata.status = 'archived'` and
returns `this.save()`. -/
def archive (doc : CTFScenarioDocument) (now : Nat) : CTFScenarioDocument :=
  save { doc with metadata := { doc.metadata with status := ScenarioStatus.archived } } now

/-- Instance method `saveDraft`: sets `metadata.status = 'draft'` and
returns `this.save()`. -/
def saveDraft (doc : CTFScenarioDocument) (now : Nat) : CTFScenarioDocument :=
  save { doc with metadata := { doc.metadata with status := ScenarioStatus.draft } } now

/-- The caller-supplied argument of `createCTFScenario`: a
`Part ial<CTFScenario>` (every field optional).  `scenario_type` is omitted
because its TypeScript type in the part ial record is the literal `"ctf"`,
so spreading it cannot change the discriminator; `scenario_id` and
`metadata` are kept because the object spread in `createCTFScenario`
interacts with them. -/
structure CTFScenarioPatch where
  scenario_id : Option String
  basic_info : Option BasicInfo
  game_content : Option CTFGameContent
  llm_config : Option LLMConfig
  custom_instructions : Option String
  gamification_config : Option GamificationConfig
  metadata : Option ScenarioMetadata

/-- `createCTFScenario(scenarioData, instructorId)` from the model file.
The object literal passed to the model constructor is
`{ scenario_id: <fresh ObjectId>, scenario_type: 'ctf', ...scenarioData,
metadata: { created_by, created_at: now, updated_at: now, version: 1,
status: 'draft', llm_generated: scenarioData.llm_config ? true : false } }`:
the spread comes after `scenario_id`, so a `scenario_id` present in the
caller data overrides the fresh one, while `metadata` comes after the spread
and always wins.  The fresh ObjectId string and the current time are passed
in as `freshId` / `now`; the construction ends with `scenario.save()` on the
new (`isNew = true`) document. -/
def createCTFScenario (scenarioData : CTFScenarioPatch) (instructorId : String)
    (freshId : String) (now : Nat) : CTFScenarioDocument :=
  let sc : CTFScenarioDocument :=
    { scenario_id := scenarioData.scenario_id.getD freshId
      scenario_type := "ctf"
      basic_info := scenarioData.basic_info
      game_content := scenarioData.game_content
      llm_config := scenarioData.llm_config
      custom_instructions := scenarioData.custom_instructions
      gamification_config := scenarioData.gamification_config
      metadata :=
        { created_at := now
          updated_at := now
          created_by := instructorId
          version := 1
          status := ScenarioStatus.draft
          llm_generated := scenarioData.llm_config.isSome }
      isNew := true }
  save sc now

/- ## validateCTFScenarioData (CTFScenario.model.ts) -/

/-- The shape of the `data: any` argument of `validateCTFScenarioData`, as
far as that function dereferences it via optional chaining. -/
structure GameContentData where
  description : Option String
  flag : Option String
  hints : Option (List CTFHint)
  solutions : Option (List CTFSolution)

structure BasicInfoData where
  learning_objectives : Option (List String)

structure ScenarioData where
  game_content : Option GameContentData
  basic_info : Option BasicInfoData

/-- `data.game_content?.description`. -/
def gcDescription (d : ScenarioData) : Option String :=
  match d.game_content with
  | some gc => gc.description
  | none => none

/-- `data.game_content?.flag`. -/
def gcFlag (d : ScenarioData) : Option String :=
  match d.game_content with
  | some gc => gc.flag
  | none => none

/-- `data.game_content?.hints`. -/
def gcHints (d : ScenarioData) : Option (List CTFHint) :=
  match d.game_content with
  | some gc => gc.hints
  | none => none

/-- `data.game_content?.solutions`. -/
def gcSolutions (d : ScenarioData) : Option (List CTFSolution) :=
  match d.game_content with
  | some gc => gc.solutions
  | none => none

/-- `data.basic_info?.learning_objectives`. -/
def biLearningObjectives (d : ScenarioData) : Option (List String) :=
  match d.basic_info with
  | some bi => bi.learning_objectives
  | none => none

/-- Message template `Description must be 300-600 characters (current: N)`. -/
def dataDescMsg (n : Nat) : String :=
  "Description must be 300-600 characters (current: " ++ toString n ++ ")"

/-- Message template `Must have 3-7 hints (current: N)`. -/
def dataHintsMsg (n : Nat) : String :=
  "Must have 3-7 hints (current: " ++ toString n ++ ")"

/-- Message `Must have at least 1 learning objective`. -/
def learningObjectivesMsg : String := "Must have at least 1 learning objective"

/-- `validateCTFScenarioData` from the model file, translated guard by guard.
A JS truthiness test guards each check: a string field is checked only when
present and non-empty (the empty string is falsy), an array field whenever it
is present (arrays are always truthy).  Each failed check appends its message
to the accumulated list in source order (description, flag, hints, solutions,
learning objectives); `valid` is `errors.length === 0`. -/
def validateCTFScenarioData (d : ScenarioData) : ValidationResult :=
  let errors : List String := []
  let errors :=
    match gcDescription d with
    | some s =>
      if s != "" then
        if s.length < 300 || s.length > 600 then errors ++ [dataDescMsg s.length]
        else errors
      else errors
    | none => errors
  let errors :=
    match gcFlag d with
    | some f =>
      if f != "" then
        if !(ctfFlagMatch f) then errors ++ [flagMsg] else errors
      else errors
    | none => errors
  let errors :=
    match gcHints d with
    | some hs =>
      if hs.length < 3 || hs.length > 7 then errors ++ [dataHintsMsg hs.length]
      else errors
    | none => errors
  let errors :=
    match gcSolutions d with
    | some ss =>
      if ss.length < 1 then errors ++ ["Must have at least 1 solution"]
      else errors
    | none => errors
  let errors :=
    match biLearningObjectives d with
    | some os =>
      if os.length < 1 then errors ++ [learningObjectivesMsg] else errors
    | none => errors
  { valid := errors.length == 0, errors := errors }

/- Independent per-check fragments of `validateCTFScenarioData` (guard and
message exactly as in the function; each contributes at most one message). -/

def dataDescPart (d : ScenarioData) : List String :=
  match gcDescription d with
  | some s =>
    if s != "" then
      if s.length < 300 || s.length > 600 then [dataDescMsg s.length] else []
    else []
  | none => []

def dataFlagPart (d : ScenarioData) : List String :=
  match gcFlag d with
  | some f =>
    if f != "" then
      if !(ctfFlagMatch f) then [flagMsg] else []
    else []
  | none => []

def dataHintsPart (d : ScenarioData) : List String :=
  match gcHints d with
  | some hs =>
    if hs.length < 3 || hs.length > 7 then [dataHintsMsg hs.length] else []
  | none => []

def dataSolutionsPart (d : ScenarioData) : List String :=
  match gcSolutions d with
  | some ss => if ss.length < 1 then ["Must have at least 1 solution"] else []
  | none => []

def dataLOPart (d : ScenarioData) : List String :=
  match biLearningObjectives d with
  | some os => if os.length < 1 then [learningObjectivesMsg] else []
  | none => []

/-- The empty input object `\x7b\x7d`. -/
def emptyScenarioData : ScenarioData :=
  { game_content := none, basic_info := none }

/- ## Concrete sample records used by counterexamples and witnesses -/

def sampleFlagOk : String := "CTF\x7bok\x7d"

def sampleHint : CTFHint :=
  { id := 1, level := HintLevel.minimal, content := "look closer",
    suggested_cost := 5, unlock_condition := none }

def sampleSolution : CTFSolution :=
  { method := "inspection", difficulty := SolutionDifficulty.easy,
    steps := ["open the page"], payload := none,
    explanation := "the flag is in the page source", prerequisites := none }

def sampleFeedback : CTFFeedbackTemplates :=
  { correct := "well done", invalid_format := "bad format", close := none,
    wrong_approach := none, time_warning := none, extra := [] }

def sampleBasicInfo : BasicInfo :=
  { title := "Sample", topic := "web security", subtopic := none,
    difficulty := Difficulty.beginner, estimated_time := 20,
    learning_objectives := ["inspect markup"], tags := [] }

def sampleMetadata : ScenarioMetadata :=
  { created_at := 0, updated_at := 0, created_by := "ying", version := 1,
    status := ScenarioStatus.draft, llm_generated := false }

/-- A game-content block with a description of `dlen` characters, `hn` hints
and `sn` solutions (flag valid, everything else minimal). -/
def mkGameContent (dlen hn sn : Nat) : CTFGameContent :=
  { description := String.mk (List.replicate dlen 'a')
    background_story := none
    flag := sampleFlagOk
    flag_format := "CTF\x7b...\x7d"
    flag_validation := FlagValidationType.exact_match
    flag_regex := none
    max_score := 100
    environment := none
    hints := List.replicate hn sampleHint
    feedback_templates := sampleFeedback
    solutions := List.replicate sn sampleSolution
    educational_content := none }

/-- A full scenario record with the given description length, hint count and
solution count. -/
def mkSc (dlen hn sn : Nat) : CTFScenario :=
  { scenario_id := "sc-1", scenario_type := "ctf",
    basic_info := sampleBasicInfo, game_content := mkGameContent dlen hn sn,
    llm_config := none, custom_instructions := none,
    gamification_config := none, metadata := sampleMetadata }

/-- A scenario that satisfies every enforced constraint but declares
`flag_validation = "regex"` while supplying no `flag_regex`. -/
def regexModeSc : CTFScenario :=
  let base := mkSc 300 3 1
  { base with
    game_content := { base.game_content with flag_validation := FlagValidationType.regex } }

/-- A persisted (non-new) document whose status is `archived`. -/
def sampleArchivedDoc : CTFScenarioDocument :=
  { scenario_id := "doc-1", scenario_type := "ctf",
    basic_info := some sampleBasicInfo,
    game_content := some (mkGameContent 300 3 1),
    llm_config := none, custom_instructions := none,
    gamification_config := none,
    metadata :=
      { created_at := 10, updated_at := 20, created_by := "ying", version := 3,
        status := ScenarioStatus.archived, llm_generated := false },
    isNew := false }

/-- An empty caller patch (every optional field absent). -/
def emptyPatch : CTFScenarioPatch :=
  { scenario_id := none, basic_info := none, game_content := none,
    llm_config := none, custom_instructions := none,
    gamification_config := none, metadata := none }

/-- A caller patch that already carries a `scenario_id`. -/
def idPatch : CTFScenarioPatch :=
  { emptyPatch with scenario_id := some "caller-chosen-id" }

/- ## Helper lemmas -/

/-- An imperative `if (bad) errors.push(msg)` step, seen as appending the
singleton or empty contribution of that one check. -/
theorem appendIf (p : Prop) [Decidable p] (acc xs : List String) :
    (if p then acc ++ xs else acc) = acc ++ (if p then xs else []) := by
  split <;> simp

/-- The error list of `validateCTFScenario` is exactly the concatenation of
the four independent checks, in source order. -/
theorem validateCTFScenario_errors_decomp (sc : CTFScenario) :
    ( validateCTFScenario sc).errors =
      (if descBad sc then [descriptionMsg] else []) ++
        (if flagBad sc then [flagMsg] else []) ++
        (if hintsBad sc then [hintsMsg] else []) ++
        (if solutionsBad sc then [solutionsMsg] else []) := by
  simp only [ validateCTFScenario, descBad, flagBad, hintsBad, solutionsBad, appendIf]
  simp [List.append_assoc]

/-- `validateCTFScenario` reports `valid` exactly when the error list is
empty. -/
theorem validateCTFScenario_valid_iff (sc : CTFScenario) :
    ( validateCTFScenario sc).valid = true ↔ ( validateCTFScenario sc).errors = [] := by
  have h : ( validateCTFScenario sc).valid =
      (( validateCTFScenario sc).errors.length == 0) := rfl
  rw [h]
  simp

set_option maxHeartbeats 1000000 in
/-- The error list of `validateCTFScenarioData` is exactly the concatenation
of the five independent checks, in source order. -/
theorem validateCTFScenarioData_errors_decomp (d : ScenarioData) :
    ( validateCTFScenarioData d).errors =
      dataDescPart d ++ dataFlagPart d ++ dataHintsPart d ++
        dataSolutionsPart d ++ dataLOPart d := by
  cases h1 : gcDescription d <;> cases h2 : gcFlag d <;> cases h3 : gcHints d <;>
    cases h4 : gcSolutions d <;> cases h5 : biLearningObjectives d <;>
      (simp only [ validateCTFScenarioData, dataDescPart, dataFlagPart, dataHintsPart,
        dataSolutionsPart, dataLOPart, h1, h2, h3, h4, h5, appendIf] <;>
        simp [List.append_assoc])

/-- `validateCTFScenarioData` reports `valid` exactly when the error list is
empty. -/
theorem validateCTFScenarioData_valid_iff (d : ScenarioData) :
    ( validateCTFScenarioData d).valid = true ↔
      ( validateCTFScenarioData d).errors = [] := by
  have h : ( validateCTFScenarioData d).valid =
      (( validateCTFScenarioData d).errors.length == 0) := rfl
  rw [h]
  simp

/-- `flagTail` accepts exactly the lists of the form `body ++ [rbrace]` with
every character of `body` different from `rbrace`. -/
theorem flagTail_iff (cs : List Char) :
    flagTail cs = true ↔
      ∃ body : List Char, (∀ c ∈ body, c ≠ rbrace) ∧ cs = body ++ [rbrace] := by
  induction cs using flagTail.induct with
  | case1 =>
    simp [flagTail]
  | case2 c =>
    simp only [flagTail, beq_iff_eq]
    constructor
    · intro h
      exact ⟨[], by simp, by simp [h]⟩
    · rintro ⟨body, hall, heq⟩
      rcases body with _ | ⟨b, bs⟩
      · simpa using heq
      · simp at heq
  | case3 c c2 cs ih =>
    simp only [flagTail, Bool.and_eq_true, Bool.not_eq_true', beq_eq_false_iff_ne, ih]
    constructor
    · rintro ⟨hc, body, hall, heq⟩
      refine ⟨c :: body, ?_, by simp [heq]⟩
      intro x hx
      rcases List.mem_cons.mp hx with hx | hx
      · simpa [hx] using hc
      · exact hall x hx
    · rintro ⟨body, hall, heq⟩
      rcases body with _ | ⟨b, bs⟩
      · simp at heq
      · simp only [List.cons_append, List.cons.injEq] at heq
        refine ⟨heq.1 ▸ hall b (by simp), bs, ?_, heq.2⟩
        intro x hx
        exact hall x (by simp [hx])

/-- `flagBody` accepts exactly the lists of the form `body ++ [rbrace]` with
`body` non-empty and every character of `body` different from `rbrace`. -/
theorem flagBody_iff (cs : List Char) :
    flagBody cs = true ↔
      ∃ body : List Char, body ≠ [] ∧ (∀ c ∈ body, c ≠ rbrace) ∧
        cs = body ++ [rbrace] := by
  match cs with
  | [] =>
    simp [flagBody]
  | [c] =>
    simp only [flagBody, Bool.false_eq_true, false_iff]
    rintro ⟨body, hne, hall, heq⟩
    rcases body with _ | ⟨b, bs⟩
    · exact hne rfl
    · simp at heq
  | c :: c2 :: cs' =>
    simp only [flagBody, Bool.and_eq_true, Bool.not_eq_true', beq_eq_false_iff_ne,
      flagTail_iff]
    constructor
    · rintro ⟨hc, body, hall, heq⟩
      refine ⟨c :: body, by simp, ?_, by simp [heq]⟩
      intro x hx
      rcases List.mem_cons.mp hx with hx | hx
      · simpa [hx] using hc
      · exact hall x hx
    · rintro ⟨body, hne, hall, heq⟩
      rcases body with _ | ⟨b, bs⟩
      · exact absurd rfl hne
      · simp only [List.cons_append, List.cons.injEq] at heq
        refine ⟨heq.1 ▸ hall b (by simp), bs, ?_, heq.2⟩
        intro x hx
        exact hall x (by simp [hx])

/-- `ctfFlagMatch` accepts exactly the strings whose character list is
`CTF` followed by `lbrace`, a non-empty run of non-`rbrace` characters, and a
final `rbrace`. -/
theorem ctfFlagMatch_iff (s : String) :
    ctfFlagMatch s = true ↔
      ∃ body : List Char, body ≠ [] ∧ (∀ c ∈ body, c ≠ rbrace) ∧
        s.data = 'C' :: 'T' :: 'F' :: lbrace :: (body ++ [rbrace]) := by
  unfold ctfFlagMatch
  split
  next b rest heq =>
    rw [Bool.and_eq_true, beq_iff_eq, flagBody_iff]
    constructor
    · rintro ⟨hb, body, hne, hall, hrest⟩
      exact ⟨body, hne, hall, by rw [heq, hb, hrest]⟩
    · rintro ⟨body, hne, hall, hdata⟩
      rw [heq] at hdata
      simp only [List.cons.injEq] at hdata
      exact ⟨hdata.2.2.2.1, body, hne, hall, hdata.2.2.2.2⟩
  next h =>
    simp only [Bool.false_eq_true, false_iff]
    rintro ⟨body, hne, hall, hdata⟩
    exact h lbrace (body ++ [rbrace]) hdata

/- ## Further concrete inputs -/

/-- The string `CTF\x7ba\x7db\x7d`: it starts with `CTF\x7b`, ends with
`\x7d`, and has a non-`\x7d` character in between, yet the pattern rejects
it because of the inner `\x7d`. -/
def cexFlag : String := "CTF\x7ba\x7db\x7d"

/-- The empty-brace string `CTF\x7b\x7d`. -/
def emptyBraceFlag : String := "CTF\x7b\x7d"

/-- The string `CTF[x]` (square brackets instead of braces). -/
def bracketFlag : String := "CTF[x]"

/-- An otherwise fully valid scenario whose flag `CTF\x7bx\x7d` has length 6,
below `CTF_CONSTRAINTS.flag.min_length`. -/
def shortFlagSc : CTFScenario :=
  let base := mkSc 300 3 1
  { base with game_content := { base.game_content with flag := "CTF\x7bx\x7d" } }

set_option maxRecDepth 8000

/- ## Message distinctness -/

theorem descriptionMsg_ne_flagMsg : descriptionMsg ≠ flagMsg := by decide

theorem descriptionMsg_ne_hintsMsg : descriptionMsg ≠ hintsMsg := by decide

theorem descriptionMsg_ne_solutionsMsg : descriptionMsg ≠ solutionsMsg := by decide

theorem flagMsg_ne_descriptionMsg : flagMsg ≠ descriptionMsg := by decide

theorem flagMsg_ne_hintsMsg : flagMsg ≠ hintsMsg := by decide

theorem flagMsg_ne_solutionsMsg : flagMsg ≠ solutionsMsg := by decide

theorem hintsMsg_ne_descriptionMsg : hintsMsg ≠ descriptionMsg := by decide

theorem hintsMsg_ne_flagMsg : hintsMsg ≠ flagMsg := by decide

theorem hintsMsg_ne_solutionsMsg : hintsMsg ≠ solutionsMsg := by decide

/- ## Claim theorems -/

/-- Claim C1, counterexample: applying `publish` to the concrete archived
document is not rejected — the resulting document has status `published`,
its version is incremented and its `updated_at` changes, so the record is
mutated rather than an InvalidTransition being signaled. -/
theorem publish_archived_cex :
    sampleArchivedDoc.metadata.status = ScenarioStatus.archived ∧
    ( publish sampleArchivedDoc 42).metadata.status = ScenarioStatus.published ∧
    ( publish sampleArchivedDoc 42).metadata.version =
      sampleArchivedDoc.metadata.version + 1 ∧
    ( publish sampleArchivedDoc 42).metadata.updated_at ≠
      sampleArchivedDoc.metadata.updated_at := by
  decide

/-- Claim C1 as amended: applying `publish` to an archived (persisted) record
is not rejected: the method unconditionally sets the status to `published`
and persists the change, incrementing the version and refreshing
`updated_at` while leaving `created_at` untouched; no lifecycle operation
checks the current state. -/
theorem publish_archived_unguarded (doc : CTFScenarioDocument) (now : Nat)
    (h1 : doc.metadata.status = ScenarioStatus.archived)
    (h2 : doc.isNew = false) :
    ( publish doc now).metadata.status = ScenarioStatus.published ∧
    ( publish doc now).metadata.version = doc.metadata.version + 1 ∧
    ( publish doc now).metadata.updated_at = now ∧
    ( publish doc now).metadata.created_at = doc.metadata.created_at := by
  simp [ publish, save, h2]

theorem publish_archived_unguarded_witness :
    sampleArchivedDoc.metadata.status = ScenarioStatus.archived ∧
    sampleArchivedDoc.isNew = false ∧
    ( publish sampleArchivedDoc 42).metadata.status = ScenarioStatus.published :=
  ⟨rfl, rfl, (publish_archived_unguarded sampleArchivedDoc 42 rfl rfl).1⟩

/-- Claim C2: every persisting lifecycle transition (`publish`, `archive`,
`saveDraft`) and every non-initial `save` increments `metadata.version` by
exactly 1, sets `metadata.updated_at` to the current time, and leaves
`created_at`, `scenario_id` and `scenario_type` unchanged; a freshly created
record has version 1 and status `draft`, and a `save` never decreases the
version of any document. -/
theorem save_frame_conditions (doc d2 : CTFScenarioDocument)
    (pd : CTFScenarioPatch) (instr fid : String) (now now2 : Nat)
    (h : doc.isNew = false) :
    ( save doc now).metadata.version = doc.metadata.version + 1 ∧
    ( save doc now).metadata.updated_at = now ∧
    ( save doc now).metadata.created_at = doc.metadata.created_at ∧
    ( save doc now).scenario_id = doc.scenario_id ∧
    ( save doc now).scenario_type = doc.scenario_type ∧
    ( publish doc now).metadata.version = doc.metadata.version + 1 ∧
    ( publish doc now).metadata.updated_at = now ∧
    ( publish doc now).metadata.created_at = doc.metadata.created_at ∧
    ( publish doc now).scenario_id = doc.scenario_id ∧
    ( publish doc now).scenario_type = doc.scenario_type ∧
    ( archive doc now).metadata.version = doc.metadata.version + 1 ∧
    ( archive doc now).metadata.updated_at = now ∧
    ( archive doc now).metadata.created_at = doc.metadata.created_at ∧
    ( archive doc now).scenario_id = doc.scenario_id ∧
    ( archive doc now).scenario_type = doc.scenario_type ∧
    ( saveDraft doc now).metadata.version = doc.metadata.version + 1 ∧
    ( saveDraft doc now).metadata.updated_at = now ∧
    ( saveDraft doc now).metadata.created_at = doc.metadata.created_at ∧
    ( saveDraft doc now).scenario_id = doc.scenario_id ∧
    ( saveDraft doc now).scenario_type = doc.scenario_type ∧
    ( createCTFScenario pd instr fid now2).metadata.version = 1 ∧
    ( createCTFScenario pd instr fid now2).metadata.status = ScenarioStatus.draft ∧
    d2.metadata.version ≤ ( save d2 now2).metadata.version := by
  refine ⟨?_, rfl, rfl, rfl, rfl, ?_, rfl, rfl, rfl, rfl, ?_, rfl, rfl, rfl, rfl,
    ?_, rfl, rfl, rfl, rfl, rfl, rfl, ?_⟩ <;>
    simp [ save, publish, archive, saveDraft, h] <;>
    cases hn : d2.isNew <;> simp [hn]

theorem save_frame_conditions_witness :
    sampleArchivedDoc.isNew = false ∧
    ( save sampleArchivedDoc 5).metadata.version =
      sampleArchivedDoc.metadata.version + 1 ∧
    ( createCTFScenario emptyPatch "ying" "fresh-1" 7).metadata.version = 1 :=
  ⟨rfl,
    (save_frame_conditions sampleArchivedDoc sampleArchivedDoc emptyPatch
      "ying" "fresh-1" 5 7 rfl).1,
    (save_frame_conditions sampleArchivedDoc sampleArchivedDoc emptyPatch
      "ying" "fresh-1" 5 7 rfl).2.2.2.2.2.2.2.2.2.2.2.2.2.2.2.2.2.2.2.2.1⟩

/-- Claim C9: the instance methods `publish`, `archive` and `saveDraft` set
`metadata.status` unconditionally and succeed from every current status
(the universally quantified document includes archived ones): `archive` on
an already-archived persisted record succeeds and still increments the
version, and `saveDraft` turns any record — published or archived included —
back into a draft. -/
theorem lifecycle_methods_unguarded (doc : CTFScenarioDocument) (now : Nat)
    (h : doc.isNew = false) :
    ( publish doc now).metadata.status = ScenarioStatus.published ∧
    ( archive doc now).metadata.status = ScenarioStatus.archived ∧
    ( saveDraft doc now).metadata.status = ScenarioStatus.draft ∧
    ( archive doc now).metadata.version = doc.metadata.version + 1 := by
  simp [ publish, archive, saveDraft, save, h]

theorem lifecycle_methods_unguarded_witness :
    sampleArchivedDoc.metadata.status = ScenarioStatus.archived ∧
    sampleArchivedDoc.isNew = false ∧
    ( archive sampleArchivedDoc 42).metadata.status = ScenarioStatus.archived ∧
    ( archive sampleArchivedDoc 42).metadata.version =
      sampleArchivedDoc.metadata.version + 1 ∧
    ( saveDraft sampleArchivedDoc 42).metadata.status = ScenarioStatus.draft :=
  ⟨rfl, rfl, (lifecycle_methods_unguarded sampleArchivedDoc 42 rfl).2.1,
    (lifecycle_methods_unguarded sampleArchivedDoc 42 rfl).2.2.2,
    (lifecycle_methods_unguarded sampleArchivedDoc 42 rfl).2.2.1⟩

/-- Claim C3: validation is non-short-circuiting and its error list is
deterministic — for both validators the error list equals the concatenation
of the independent per-check contributions in the fixed order description
length, flag pattern, hints cardinality, solutions cardinality (and, for the
model helper, learning-objectives cardinality last); each check contributes
at most one message and `valid` holds exactly when no failure was
collected. -/
theorem validation_errors_ordered (sc : CTFScenario) (d : ScenarioData) :
    ( validateCTFScenario sc).errors =
      (if descBad sc then [descriptionMsg] else []) ++
        (if flagBad sc then [flagMsg] else []) ++
        (if hintsBad sc then [hintsMsg] else []) ++
        (if solutionsBad sc then [solutionsMsg] else []) ∧
    (( validateCTFScenario sc).valid = true ↔
      ( validateCTFScenario sc).errors = []) ∧
    ( validateCTFScenarioData d).errors =
      dataDescPart d ++ dataFlagPart d ++ dataHintsPart d ++
        dataSolutionsPart d ++ dataLOPart d ∧
    (( validateCTFScenarioData d).valid = true ↔
      ( validateCTFScenarioData d).errors = []) ∧
    ( dataDescPart d).length ≤ 1 ∧
    ( dataFlagPart d).length ≤ 1 ∧
    ( dataHintsPart d).length ≤ 1 ∧
    ( dataSolutionsPart d).length ≤ 1 ∧
    ( dataLOPart d).length ≤ 1 := by
  refine ⟨validateCTFScenario_errors_decomp sc, validateCTFScenario_valid_iff sc,
    validateCTFScenarioData_errors_decomp d, validateCTFScenarioData_valid_iff d,
    ?_, ?_, ?_, ?_, ?_⟩ <;>
    simp only [dataDescPart, dataFlagPart, dataHintsPart, dataSolutionsPart,
      dataLOPart] <;>
    (split <;> (try split_ifs) <;> simp)

/-- Claim C4, counterexample: when the caller-supplied record already carries
a `scenario_id`, the object spread in `createCTFScenario` overrides the
freshly generated id, so two calls with identical input (and distinct fresh
ids) yield records with the same, caller-chosen id rather than distinct
fresh ones. -/
theorem createCTFScenario_caller_id_cex :
    idPatch.scenario_id = some "caller-chosen-id" ∧
    ( createCTFScenario idPatch "inst" "fresh-a" 0).scenario_id =
      "caller-chosen-id" ∧
    ( createCTFScenario idPatch "inst" "fresh-b" 0).scenario_id =
      "caller-chosen-id" ∧
    ("fresh-a" : String) ≠ "fresh-b" ∧
    ( createCTFScenario idPatch "inst" "fresh-a" 0).scenario_id =
      ( createCTFScenario idPatch "inst" "fresh-b" 0).scenario_id := by
  decide

/-- Claim C4 as amended: provided the caller-supplied record does not itself
carry a `scenario_id` (the object spread would override the fresh one), the
created record receives the fresh id, `scenario_type = "ctf"`, status
`draft`, version 1, `created_at = updated_at = now`, `created_by` the given
instructor, and `llm_generated` true iff an `llm_config` was supplied; two
calls with distinct fresh ids then yield records with distinct ids. -/
theorem createCTFScenario_fresh_fields (pd : CTFScenarioPatch)
    (instr fid1 fid2 : String) (now : Nat)
    (h0 : pd.scenario_id = none) (hne : fid1 ≠ fid2) :
    ( createCTFScenario pd instr fid1 now).scenario_id = fid1 ∧
    ( createCTFScenario pd instr fid1 now).scenario_type = "ctf" ∧
    ( createCTFScenario pd instr fid1 now).metadata.status =
      ScenarioStatus.draft ∧
    ( createCTFScenario pd instr fid1 now).metadata.version = 1 ∧
    ( createCTFScenario pd instr fid1 now).metadata.created_at = now ∧
    ( createCTFScenario pd instr fid1 now).metadata.updated_at = now ∧
    ( createCTFScenario pd instr fid1 now).metadata.created_by = instr ∧
    ( createCTFScenario pd instr fid1 now).metadata.llm_generated =
      pd.llm_config.isSome ∧
    ( createCTFScenario pd instr fid2 now).metadata.version = 1 ∧
    ( createCTFScenario pd instr fid2 now).metadata.status =
      ScenarioStatus.draft ∧
    ( createCTFScenario pd instr fid1 now).scenario_id ≠
      ( createCTFScenario pd instr fid2 now).scenario_id := by
  simp [ createCTFScenario, save, h0, hne]

theorem createCTFScenario_fresh_fields_witness :
    emptyPatch.scenario_id = none ∧
    ("fresh-a" : String) ≠ "fresh-b" ∧
    ( createCTFScenario emptyPatch "inst" "fresh-a" 0).scenario_id =
      "fresh-a" :=
  ⟨rfl, by decide,
    (createCTFScenario_fresh_fields emptyPatch "inst" "fresh-a" "fresh-b" 0
      rfl (by decide)).1⟩

/-- Claim C5, counterexample: the string `CTF\x7ba\x7db\x7d` starts with the
literal `CTF\x7b`, ends with `\x7d`, and contains at least one non-`\x7d`
character in between, yet `ctfFlagMatch` rejects it — so passing the check
is not equivalent to the claimed prefix/suffix/some-non-brace condition. -/
theorem flag_claim_iff_cex :
    ctfFlagMatch cexFlag = false ∧
    cexFlag.data.take 4 = ['C', 'T', 'F', lbrace] ∧
    cexFlag.data.getLast? = some rbrace ∧
    ((cexFlag.data.drop 4).dropLast.any fun c => !(c == rbrace)) = true := by
  decide

/-- Claim C5 as amended: the flag check passes exactly the strings of the
form `CTF\x7b` + body + `\x7d` where the body is non-empty and contains no
`\x7d` at all (not merely some non-`\x7d` character); in particular
`CTF\x7b\x7d` and `CTF[x]` fail and `CTF\x7bok\x7d` passes. -/
theorem flag_pattern_exact_characterization :
    (∀ s : String, ctfFlagMatch s = true ↔
      ∃ body : List Char, body ≠ [] ∧ (∀ c ∈ body, c ≠ rbrace) ∧
        s.data = 'C' :: 'T' :: 'F' :: lbrace :: (body ++ [rbrace])) ∧
    ctfFlagMatch emptyBraceFlag = false ∧
    ctfFlagMatch bracketFlag = false ∧
    ctfFlagMatch sampleFlagOk = true :=
  ⟨ctfFlagMatch_iff, by decide, by decide, by decide⟩

/-- Claim C6: the boundary checks of `validateCTFScenario` are inclusive on
both ends — a description length within `[300, 600]` produces no description
error while lengths 299 and 601 produce exactly one; hint counts 3 and 7
pass the cardinality check while 2 and 8 fail it. -/
theorem boundary_checks_inclusive (sc : CTFScenario) :
    (CTF_CONSTRAINTS_description_min_length ≤ sc.game_content.description.length →
      sc.game_content.description.length ≤ CTF_CONSTRAINTS_description_max_length →
      descriptionMsg ∉ ( validateCTFScenario sc).errors) ∧
    (sc.game_content.description.length = 299 →
      ( validateCTFScenario sc).errors.count descriptionMsg = 1) ∧
    (sc.game_content.description.length = 601 →
      ( validateCTFScenario sc).errors.count descriptionMsg = 1) ∧
    (sc.game_content.hints.length = 3 →
      hintsMsg ∉ ( validateCTFScenario sc).errors) ∧
    (sc.game_content.hints.length = 7 →
      hintsMsg ∉ ( validateCTFScenario sc).errors) ∧
    (sc.game_content.hints.length = 2 →
      hintsMsg ∈ ( validateCTFScenario sc).errors) ∧
    (sc.game_content.hints.length = 8 →
      hintsMsg ∈ ( validateCTFScenario sc).errors) := by
  refine ⟨?_, ?_, ?_, ?_, ?_, ?_, ?_⟩
  · intro hlo hhi
    have hb : descBad sc = false := by
      simp only [descBad, CTF_CONSTRAINTS_description_min_length,
        CTF_CONSTRAINTS_description_max_length, Bool.or_eq_false_iff,
        decide_eq_false_iff_not, not_lt] at *
      omega
    rw [validateCTFScenario_errors_decomp]
    simp only [hb, Bool.false_eq_true, if_false, List.nil_append, List.mem_append]
    split_ifs <;>
      simp [flagMsg_ne_descriptionMsg.symm, hintsMsg_ne_descriptionMsg.symm,
        descriptionMsg_ne_flagMsg, descriptionMsg_ne_hintsMsg,
        descriptionMsg_ne_solutionsMsg]
  · intro hlen
    have hb : descBad sc = true := by
      simp [descBad, hlen, CTF_CONSTRAINTS_description_min_length]
    rw [validateCTFScenario_errors_decomp]
    simp only [hb, if_true, List.count_append]
    split_ifs <;>
      simp [List.count_cons, List.count_nil, descriptionMsg_ne_flagMsg,
        descriptionMsg_ne_hintsMsg, descriptionMsg_ne_solutionsMsg,
        flagMsg_ne_descriptionMsg, hintsMsg_ne_descriptionMsg]
  · intro hlen
    have hb : descBad sc = true := by
      simp [descBad, hlen, CTF_CONSTRAINTS_description_max_length]
    rw [validateCTFScenario_errors_decomp]
    simp only [hb, if_true, List.count_append]
    split_ifs <;>
      simp [List.count_cons, List.count_nil, descriptionMsg_ne_flagMsg,
        descriptionMsg_ne_hintsMsg, descriptionMsg_ne_solutionsMsg,
        flagMsg_ne_descriptionMsg, hintsMsg_ne_descriptionMsg]
  · intro hlen
    have hb : hintsBad sc = false := by
      simp [hintsBad, hlen, CTF_CONSTRAINTS_hints_min_count,
        CTF_CONSTRAINTS_hints_max_count]
    rw [validateCTFScenario_errors_decomp]
    simp only [hb, Bool.false_eq_true, if_false, List.append_nil, List.mem_append]
    split_ifs <;>
      simp [hintsMsg_ne_descriptionMsg, hintsMsg_ne_flagMsg,
        hintsMsg_ne_solutionsMsg]
  · intro hlen
    have hb : hintsBad sc = false := by
      simp [hintsBad, hlen, CTF_CONSTRAINTS_hints_min_count,
        CTF_CONSTRAINTS_hints_max_count]
    rw [validateCTFScenario_errors_decomp]
    simp only [hb, Bool.false_eq_true, if_false, List.append_nil, List.mem_append]
    split_ifs <;>
      simp [hintsMsg_ne_descriptionMsg, hintsMsg_ne_flagMsg,
        hintsMsg_ne_solutionsMsg]
  · intro hlen
    have hb : hintsBad sc = true := by
      simp [hintsBad, hlen, CTF_CONSTRAINTS_hints_min_count]
    rw [validateCTFScenario_errors_decomp]
    simp [hb]
  · intro hlen
    have hb : hintsBad sc = true := by
      simp [hintsBad, hlen, CTF_CONSTRAINTS_hints_max_count]
    rw [validateCTFScenario_errors_decomp]
    simp [hb]

theorem boundary_checks_inclusive_witness :
    descriptionMsg ∉ ( validateCTFScenario (mkSc 300 3 1)).errors ∧
    descriptionMsg ∉ ( validateCTFScenario (mkSc 600 3 1)).errors ∧
    ( validateCTFScenario (mkSc 299 3 1)).errors.count descriptionMsg = 1 ∧
    ( validateCTFScenario (mkSc 601 3 1)).errors.count descriptionMsg = 1 ∧
    hintsMsg ∉ ( validateCTFScenario (mkSc 300 3 1)).errors ∧
    hintsMsg ∉ ( validateCTFScenario (mkSc 300 7 1)).errors ∧
    hintsMsg ∈ ( validateCTFScenario (mkSc 300 2 1)).errors ∧
    hintsMsg ∈ ( validateCTFScenario (mkSc 300 8 1)).errors :=
  ⟨(boundary_checks_inclusive (mkSc 300 3 1)).1 (by decide) (by decide),
    (boundary_checks_inclusive (mkSc 600 3 1)).1 (by decide) (by decide),
    (boundary_checks_inclusive (mkSc 299 3 1)).2.1 (by decide),
    (boundary_checks_inclusive (mkSc 601 3 1)).2.2.1 (by decide),
    (boundary_checks_inclusive (mkSc 300 3 1)).2.2.2.1 (by decide),
    (boundary_checks_inclusive (mkSc 300 7 1)).2.2.2.2.1 (by decide),
    (boundary_checks_inclusive (mkSc 300 2 1)).2.2.2.2.2.1 (by decide),
    (boundary_checks_inclusive (mkSc 300 8 1)).2.2.2.2.2.2 (by decide)⟩

/-- Claim C7: the concrete scenario `regexModeSc` has
`flag_validation = "regex"` and no `flag_regex`, all other constraints
satisfied — and `validateCTFScenario` nevertheless accepts it as valid with
no errors: no validation code enforces the companion-pattern requirement
stated in the schema's own comment. -/
theorem regex_mode_without_pattern_accepted :
    regexModeSc.game_content.flag_validation = FlagValidationType.regex ∧
    regexModeSc.game_content.flag_regex = none ∧
    ( validateCTFScenario regexModeSc).valid = true ∧
    ( validateCTFScenario regexModeSc).errors = [] := by
  decide

/-- Claim C8: `validateCTFScenarioData` checks only fields that are present —
for every input each absent field contributes no error (its fragment of the
ordered error decomposition is empty), and the empty input object validates
to `valid = true` with an empty error list. -/
theorem data_checks_only_present_fields (d : ScenarioData) :
    (gcDescription d = none → dataDescPart d = []) ∧
    (gcFlag d = none → dataFlagPart d = []) ∧
    (gcHints d = none → dataHintsPart d = []) ∧
    (gcSolutions d = none → dataSolutionsPart d = []) ∧
    (biLearningObjectives d = none → dataLOPart d = []) ∧
    ( validateCTFScenarioData d).errors =
      dataDescPart d ++ dataFlagPart d ++ dataHintsPart d ++
        dataSolutionsPart d ++ dataLOPart d ∧
    validateCTFScenarioData emptyScenarioData =
      { valid := true, errors := [] } := by
  refine ⟨?_, ?_, ?_, ?_, ?_, validateCTFScenarioData_errors_decomp d, by decide⟩ <;>
    (intro h; simp [dataDescPart, dataFlagPart, dataHintsPart,
      dataSolutionsPart, dataLOPart, h])

theorem data_checks_only_present_fields_witness :
    dataDescPart emptyScenarioData = [] ∧
    dataFlagPart emptyScenarioData = [] ∧
    dataHintsPart emptyScenarioData = [] ∧
    dataSolutionsPart emptyScenarioData = [] ∧
    dataLOPart emptyScenarioData = [] :=
  ⟨(data_checks_only_present_fields emptyScenarioData).1 rfl,
    (data_checks_only_present_fields emptyScenarioData).2.1 rfl,
    (data_checks_only_present_fields emptyScenarioData).2.2.1 rfl,
    (data_checks_only_present_fields emptyScenarioData).2.2.2.1 rfl,
    (data_checks_only_present_fields emptyScenarioData).2.2.2.2.1 rfl⟩

/-- Claim C10: the flag length bounds of `CTF_CONSTRAINTS.flag` are not
enforced — for every scenario whose flag matches the pattern, no flag error
is emitted, regardless of the flag's total length. -/
theorem flag_length_bounds_unenforced (sc : CTFScenario)
    (h : ctfFlagMatch sc.game_content.flag = true) :
    flagMsg ∉ ( validateCTFScenario sc).errors := by
  have hf : flagBad sc = false := by simp [flagBad, h]
  rw [validateCTFScenario_errors_decomp]
  simp only [hf, Bool.false_eq_true, if_false, List.append_nil, List.nil_append,
    List.mem_append]
  split_ifs <;>
    simp [flagMsg_ne_descriptionMsg, flagMsg_ne_hintsMsg, flagMsg_ne_solutionsMsg]

theorem flag_length_bounds_unenforced_witness :
    ctfFlagMatch shortFlagSc.game_content.flag = true ∧
    shortFlagSc.game_content.flag.length < CTF_CONSTRAINTS_flag_min_length ∧
    flagMsg ∉ ( validateCTFScenario shortFlagSc).errors :=
  ⟨by decide, by decide, flag_length_bounds_unenforced shortFlagSc (by decide)⟩
